import Mathlib

/-!
Verification of the candidate & interview workflow engine of the HR
management repository. Definitions are shallow embeddings of the
TypeScript source files:

* `CandidateDetail.getAvailableActions` / `updateCandidateStatus`
  (candidate lifecycle state machine),
* `DatabaseService.updateCandidate`, `createInterviewSession`,
  `createInterview`, `createDecision`, `createAuditLog` (store layer),
* `InterviewSessionForm.onSubmit` (interview session coordinator),
* `DecisionForm.onSubmit` (decision resolver),
* `InterviewList.getSessionProgress` (progress query),
* `generateUsername` / `generatePassword` (src/utils/validation.ts).

Supabase calls are modelled as pure state-passing operations over an
explicit in-memory store; a failure-injection record stands for the
possibility that any individual network write rejects.
-/

namespace Hrm

/-- Candidate lifecycle status, from the `candidates.status` column and the
`statusLabels` table of the candidate detail page. -/
inductive CandidateStatus where
  | SUBMITTED
  | APPROVED
  | REJECTED
  | INTERVIEW
  | OFFERED
  | HIRED
  | NOT_HIRED
deriving DecidableEq, Repr

/-- Interview evaluation result, from the `interviews.result` column. -/
inductive InterviewResult where
  | PENDING
  | PASS
  | FAIL
deriving DecidableEq, Repr

/-- Interview session status, from the `interview_sessions.status` column. -/
inductive SessionStatus where
  | SCHEDULED
  | IN_PROGRESS
  | COMPLETED
  | CANCELLED
deriving DecidableEq, Repr

/-- Hire/no-hire decision choice, from the `decisions.decision` column. -/
inductive DecisionChoice where
  | HIRE
  | NO_HIRE
deriving DecidableEq, Repr

/-- Candidate row (the fields the workflow logic reads or writes). -/
structure Candidate where
  id : String
  full_name : String
  email : String
  applied_position_id : String
  status : CandidateStatus
deriving DecidableEq, Repr

/-- Interview session row. -/
structure InterviewSession where
  id : String
  candidate_id : String
  title : String
  scheduled_date : String
  status : SessionStatus
  created_by : String
deriving DecidableEq, Repr

/-- Interview row (one per (session, interviewer) pair). -/
structure Interview where
  id : String
  candidate_id : String
  interviewer_id : String
  interview_session_id : String
  tech_notes : String
  soft_notes : String
  result : InterviewResult
deriving DecidableEq, Repr

/-- Decision row. -/
structure Decision where
  id : String
  candidate_id : String
  decided_by : String
  decision : DecisionChoice
  decision_notes : String
deriving DecidableEq, Repr

/-- Audit log row, from `DatabaseService.createAuditLog`. -/
structure AuditLog where
  actor_id : Option String
  action : String
  target_type : String
  target_id : String
deriving DecidableEq, Repr

/-- In-memory image of the store tables touched by the workflow, plus a
counter standing for the database's id generation. -/
structure StoreState where
  candidates : List Candidate
  sessions : List InterviewSession
  interviews : List Interview
  decisions : List Decision
  auditLogs : List AuditLog
  nextId : Nat
deriving DecidableEq, Repr

/-- Errors surfaced by the workflow operations: the empty-interviewer guard
of `InterviewSessionForm.onSubmit`, the absence of a matching UI action in
`getAvailableActions`, a `.single()` returning no row, and a rejected
network write. -/
inductive WorkflowError where
  | noInterviewerSelected
  | invalidTransition (current target : CandidateStatus)
  | decisionNotAvailable
  | notFound
  | dbFailure
deriving DecidableEq, Repr

instance {ε α : Type} [DecidableEq ε] [DecidableEq α] :
    DecidableEq (Except ε α) := fun a b =>
  match a, b with
  | .error e1, .error e2 =>
      if h : e1 = e2 then .isTrue (by rw [h]) else .isFalse (by simp [h])
  | .error _, .ok _ => .isFalse (by simp)
  | .ok _, .error _ => .isFalse (by simp)
  | .ok a1, .ok a2 =>
      if h : a1 = a2 then .isTrue (by rw [h]) else .isFalse (by simp [h])

/-- UI actions offered on the candidate detail page: a direct status
update button, or opening the decision form. -/
inductive UIAction where
  | updateStatus (target : CandidateStatus)
  | openDecisionForm
deriving DecidableEq, Repr

/-- Actions offered by `CandidateDetail.getAvailableActions` (part_009,
lines 76–107): the `switch (candidate.status)` over SUBMITTED, APPROVED,
INTERVIEW and OFFERED; every other status falls through with no action. -/
def getAvailableActions : CandidateStatus → List UIAction
  | .SUBMITTED => [.updateStatus .APPROVED, .updateStatus .REJECTED]
  | .APPROVED => [.updateStatus .INTERVIEW]
  | .INTERVIEW => [.openDecisionForm]
  | .OFFERED => [.updateStatus .HIRED, .updateStatus .NOT_HIRED]
  | _ => []

/-- Status written by `DecisionForm.onSubmit` (line 44):
`data.decision === 'HIRE' ? 'OFFERED' : 'NOT_HIRED'`. -/
def decisionStatus : DecisionChoice → CandidateStatus
  | .HIRE => .OFFERED
  | .NO_HIRE => .NOT_HIRED

/-- Statuses reachable from a given status through the offered UI actions:
a direct update button reaches its target, the decision form reaches the
status written for either decision choice. -/
def transitionTargets (s : CandidateStatus) : List CandidateStatus :=
  (getAvailableActions s).flatMap fun a =>
    match a with
    | .updateStatus t => [t]
    | .openDecisionForm => [decisionStatus .HIRE, decisionStatus .NO_HIRE]

/-- The candidate-level transition operation: the requested target is
applied (via `DatabaseService.updateCandidate`, which writes the status
unconditionally) exactly when some offered action reaches it; otherwise no
update is issued and the candidate is returned unchanged. -/
def transition (c : Candidate) (target : CandidateStatus) :
    Option WorkflowError × Candidate :=
  if (transitionTargets c.status).contains target then
    (none, { c with status := target })
  else
    (some (.invalidTransition c.status target), c)

/-- The transition table as written in the specification (§4.1), for the
refinement comparison with `transition`: SUBMITTED → {APPROVED, REJECTED};
APPROVED → {INTERVIEW}; INTERVIEW → {OFFERED, NOT_HIRED};
OFFERED → {HIRED, NOT_HIRED}. -/
def specTransitionTable : CandidateStatus → CandidateStatus → Bool
  | .SUBMITTED, .APPROVED => true
  | .SUBMITTED, .REJECTED => true
  | .APPROVED, .INTERVIEW => true
  | .INTERVIEW, .OFFERED => true
  | .INTERVIEW, .NOT_HIRED => true
  | .OFFERED, .HIRED => true
  | .OFFERED, .NOT_HIRED => true
  | _, _ => false

/-! ## Store-layer primitives

Each Supabase call in `DatabaseService` is a single network write that may
reject. A `Bool` argument injects that environment failure; on success the
row is appended (inserts) or mapped in place (updates), mirroring the
corresponding `DatabaseService` method. -/

/-- The `DatabaseService.createInterviewSession` insert: one new session
row, with the fields `InterviewSessionForm.onSubmit` passes. -/
def dbInsertSession (fails : Bool) (st : StoreState)
    (candidate_id title scheduled_date created_by : String)
    (status : SessionStatus) :
    Except WorkflowError (InterviewSession × StoreState) :=
  if fails then .error .dbFailure
  else
    let s : InterviewSession :=
      { id := toString st.nextId, candidate_id := candidate_id,
        title := title, scheduled_date := scheduled_date,
        status := status, created_by := created_by }
    .ok (s, { st with sessions := st.sessions ++ [s], nextId := st.nextId + 1 })

/-- The `DatabaseService.createInterview` insert: one new interview row. -/
def dbInsertInterview (fails : Bool) (st : StoreState)
    (candidate_id interviewer_id interview_session_id tech_notes soft_notes :
      String) (result : InterviewResult) :
    Except WorkflowError (Interview × StoreState) :=
  if fails then .error .dbFailure
  else
    let i : Interview :=
      { id := toString st.nextId, candidate_id := candidate_id,
        interviewer_id := interviewer_id,
        interview_session_id := interview_session_id,
        tech_notes := tech_notes, soft_notes := soft_notes, result := result }
    .ok (i, { st with interviews := st.interviews ++ [i], nextId := st.nextId + 1 })

/-- The `DatabaseService.createDecision` insert: one new decision row. -/
def dbInsertDecision (fails : Bool) (st : StoreState)
    (candidate_id decided_by : String) (decision : DecisionChoice)
    (decision_notes : String) :
    Except WorkflowError (Decision × StoreState) :=
  if fails then .error .dbFailure
  else
    let d : Decision :=
      { id := toString st.nextId, candidate_id := candidate_id,
        decided_by := decided_by, decision := decision,
        decision_notes := decision_notes }
    .ok (d, { st with decisions := st.decisions ++ [d], nextId := st.nextId + 1 })

/-- The `DatabaseService.updateCandidate(id, { status })` update:
`.update(updates).eq('id', id).select().single()` writes the status of the
matching row; with no matching row, `.single()` rejects (PGRST116). No
audit log is written by this method. -/
def dbUpdateCandidateStatus (fails : Bool) (st : StoreState) (id : String)
    (status : CandidateStatus) :
    Except WorkflowError (Candidate × StoreState) :=
  if fails then .error .dbFailure
  else
    match st.candidates.find? (fun c => c.id = id) with
    | none => .error .notFound
    | some c =>
        .ok ({ c with status := status },
          { st with candidates :=
              st.candidates.map (fun x =>
                if x.id = id then { x with status := status } else x) })

/-- Failure injection for one `createSession` run: whether the session
insert, the k-th interview insert, the candidate update, or the decision
insert rejects. -/
structure FailSpec where
  sessionInsert : Bool
  interviewInsert : Nat → Bool
  candidateUpdate : Bool
  decisionInsert : Bool

/-- Run with no injected failure: every network write succeeds. -/
def noFail : FailSpec :=
  { sessionInsert := false, interviewInsert := fun _ => false,
    candidateUpdate := false, decisionInsert := false }

/-- The `Promise.all(selectedInterviewers.map(... createInterview ...))`
fan-out of `InterviewSessionForm.onSubmit`, one insert per interviewer id
with empty notes and result PENDING, modelled as the sequential schedule in
which the inserts before a rejected one have landed. On failure the state
reached so far is returned alongside the error. -/
def insertInterviews (fail : FailSpec) (st : StoreState)
    (candidate_id session_id : String) :
    List String → Nat → (Except WorkflowError Unit × StoreState)
  | [], _ => (.ok (), st)
  | interviewerId :: rest, k =>
    match dbInsertInterview (fail.interviewInsert k) st candidate_id
        interviewerId session_id "" "" .PENDING with
    | .error e => (.error e, st)
    | .ok (_, st') => insertInterviews fail st' candidate_id session_id rest (k + 1)

/-- The interview session coordinator, `InterviewSessionForm.onSubmit`
(part_008, lines 70–109): reject an empty interviewer list with the
"Vui lòng chọn ít nhất một người phỏng vấn" toast; otherwise insert the
session (status SCHEDULED), fan out one interview per selected interviewer,
then update the candidate status to INTERVIEW. The `catch` block only
reports the error: writes already performed are not rolled back. -/
def createSession (fail : FailSpec) (st : StoreState)
    (candidate_id title scheduled_date : String)
    (interviewerIds : List String) (actorId : String) :
    Except WorkflowError Unit × StoreState :=
  if interviewerIds.length = 0 then (.error .noInterviewerSelected, st)
  else
    match dbInsertSession fail.sessionInsert st candidate_id title
        scheduled_date actorId .SCHEDULED with
    | .error e => (.error e, st)
    | .ok (session, st1) =>
      match insertInterviews fail st1 candidate_id session.id interviewerIds 0 with
      | (.error e, st2) => (.error e, st2)
      | (.ok _, st2) =>
        match dbUpdateCandidateStatus fail.candidateUpdate st2 candidate_id
            .INTERVIEW with
        | .error e => (.error e, st2)
        | .ok (_, st3) => (.ok (), st3)

/-- The decision resolver: the decision form is reachable from the
candidate detail page only through the `openDecisionForm` action that
`getAvailableActions` offers in the INTERVIEW case; `DecisionForm.onSubmit`
(lines 34–52) then inserts the decision row and updates the candidate
status to OFFERED for HIRE and NOT_HIRED for NO_HIRE, each a separate
awaited write. -/
def recordDecision (fail : FailSpec) (st : StoreState)
    (candidateId : String) (decision : DecisionChoice)
    (decision_notes actorId : String) :
    Except WorkflowError Unit × StoreState :=
  match st.candidates.find? (fun c => c.id = candidateId) with
  | none => (.error .notFound, st)
  | some c =>
    if (getAvailableActions c.status).contains .openDecisionForm then
      match dbInsertDecision fail.decisionInsert st candidateId actorId
          decision decision_notes with
      | .error e => (.error e, st)
      | .ok (_, st1) =>
        match dbUpdateCandidateStatus fail.candidateUpdate st1 candidateId
            (decisionStatus decision) with
        | .error e => (.error e, st1)
        | .ok (_, st2) => (.ok (), st2)
    else (.error .decisionNotAvailable, st)

/-- The candidate lifecycle status update, `updateCandidateStatus` in the
candidate detail page (part_009, lines 64–74): one awaited
`DatabaseService.updateCandidate(id, { status })` call; the surrounding
code only reloads the candidate and shows a toast. No audit-log write
appears on this path. -/
def updateCandidateStatus (fail : Bool) (st : StoreState)
    (candidateId : String) (status : CandidateStatus) :
    Except WorkflowError Unit × StoreState :=
  match dbUpdateCandidateStatus fail st candidateId status with
  | .error e => (.error e, st)
  | .ok (_, st') => (.ok (), st')

/-! ## Progress query (src/main.tsx, InterviewList.getSessionProgress) -/

/-- JavaScript `Math.round` on the nonnegative values produced by the
progress computation: floor of x + 1/2 (halves round up). -/
def jsMathRound (q : ℚ) : ℤ := ⌊q + 1 / 2⌋

/-- Result shape of `getSessionProgress`. -/
structure SessionProgress where
  total : Nat
  completed : Nat
  passed : Nat
  percentage : ℤ
deriving DecidableEq, Repr

/-- The progress query `getSessionProgress` (src/main.tsx, lines 308–319),
over the session's interview rows: counts of all rows, of rows with result
not PENDING, of rows with result PASS, and the rounded completion
percentage (0 when there are no rows). -/
def getSessionProgress (interviews : List Interview) : SessionProgress :=
  let totalInterviews := interviews.length
  let completedInterviews :=
    (interviews.filter (fun i => i.result ≠ .PENDING)).length
  let passedInterviews :=
    (interviews.filter (fun i => i.result = .PASS)).length
  { total := totalInterviews
    completed := completedInterviews
    passed := passedInterviews
    percentage :=
      if totalInterviews > 0 then
        jsMathRound ((completedInterviews : ℚ) / (totalInterviews : ℚ) * 100)
      else 0 }

/-! ## Password generator (src/utils/validation.ts, generatePassword) -/

/-- The character pool of `generatePassword`. -/
def passwordChars : List Char :=
  "ABCDEFGHIJKLMNOPQRSTUVWXYZabcdefghijklmnopqrstuvwxyz0123456789".data

/-- The password generator (validation.ts, lines 112–121), with the twelve
`Math.floor(Math.random() * chars.length)` draws passed in explicitly:
build a 12-character string from the pool, then overwrite it with
`'A' + password.substring(1, 10) + 'a1'`. -/
def generatePassword (draws : Fin 12 → Fin 62) : String :=
  let password :=
    (List.finRange 12).map (fun i => passwordChars.getD (draws i) 'A')
  String.mk (['A'] ++ ((password.drop 1).take 9) ++ ['a', '1'])

/-! ## Username generator (src/utils/validation.ts, generateUsername)

Strings are processed character by character, mirroring the source's chain
of single-character regex replacements. JavaScript's `toLowerCase` is
modelled on the ASCII range plus the precomposed Vietnamese letters that
the source's diacritic classes cover; every other code point passes
through unchanged and is then removed by the `[^a-z0-9]` strip, as in the
source. `Date.now()` is passed in as the explicit `now` argument. -/

/-- Whitespace as trimmed by `String.prototype.trim` (the code points that
can occur in the fields at hand). -/
def jsWhitespace (c : Char) : Bool :=
  c = ' ' ∨ c = '\t' ∨ c = '\n' ∨ c = '\r' ∨ c = '\x0b' ∨ c = '\x0c'

/-- JavaScript `trim`: drop leading and trailing whitespace. -/
def jsTrim (s : String) : String :=
  String.mk (((s.data.dropWhile jsWhitespace).reverse.dropWhile
    jsWhitespace).reverse)

/-- Uppercase–lowercase pairs of the precomposed Vietnamese letters whose
lowercase forms appear in the source's diacritic classes. -/
def viUpperLower : List (Char × Char) :=
  [('À','à'), ('Á','á'), ('Ạ','ạ'), ('Ả','ả'), ('Ã','ã'), ('Â','â'), ('Ầ','ầ'),
   ('Ấ','ấ'), ('Ậ','ậ'), ('Ẩ','ẩ'), ('Ẫ','ẫ'), ('Ă','ă'), ('Ằ','ằ'), ('Ắ','ắ'),
   ('Ặ','ặ'), ('Ẳ','ẳ'), ('Ẵ','ẵ'), ('È','è'), ('É','é'), ('Ẹ','ẹ'), ('Ẻ','ẻ'),
   ('Ẽ','ẽ'), ('Ê','ê'), ('Ề','ề'), ('Ế','ế'), ('Ệ','ệ'), ('Ể','ể'), ('Ễ','ễ'),
   ('Ì','ì'), ('Í','í'), ('Ị','ị'), ('Ỉ','ỉ'), ('Ĩ','ĩ'), ('Ò','ò'), ('Ó','ó'),
   ('Ọ','ọ'), ('Ỏ','ỏ'), ('Õ','õ'), ('Ô','ô'), ('Ồ','ồ'), ('Ố','ố'), ('Ộ','ộ'),
   ('Ổ','ổ'), ('Ỗ','ỗ'), ('Ơ','ơ'), ('Ờ','ờ'), ('Ớ','ớ'), ('Ợ','ợ'), ('Ở','ở'),
   ('Ỡ','ỡ'), ('Ù','ù'), ('Ú','ú'), ('Ụ','ụ'), ('Ủ','ủ'), ('Ũ','ũ'), ('Ư','ư'),
   ('Ừ','ừ'), ('Ứ','ứ'), ('Ự','ự'), ('Ử','ử'), ('Ữ','ữ'), ('Ỳ','ỳ'), ('Ý','ý'),
   ('Ỵ','ỵ'), ('Ỷ','ỷ'), ('Ỹ','ỹ'), ('Đ','đ')]

/-- Per-character `toLowerCase`: ASCII letters shift into lowercase, the
Vietnamese uppercase letters map through the table, everything else is
unchanged. -/
def jsToLowerChar (c : Char) : Char :=
  if 'A' ≤ c ∧ c ≤ 'Z' then Char.ofNat (c.toNat + 32)
  else
    match viUpperLower.find? (fun p => p.1 = c) with
    | some p => p.2
    | none => c

/-- The `[àáạảãâầấậẩẫăằắặẳẵ]` class of the source. -/
def aChars : List Char := "àáạảãâầấậẩẫăằắặẳẵ".data

/-- The `[èéẹẻẽêềếệểễ]` class of the source. -/
def eChars : List Char := "èéẹẻẽêềếệểễ".data

/-- The `[ìíịỉĩ]` class of the source. -/
def iChars : List Char := "ìíịỉĩ".data

/-- The `[òóọỏõôồốộổỗơờớợởỡ]` class of the source. -/
def oChars : List Char := "òóọỏõôồốộổỗơờớợởỡ".data

/-- The `[ùúụủũưừứựửữ]` class of the source. -/
def uChars : List Char := "ùúụủũưừứựửữ".data

/-- The `[ỳýỵỷỹ]` class of the source. -/
def yChars : List Char := "ỳýỵỷỹ".data

/-- One `.replace(/[class]/g, r)` pass, per character. -/
def replaceClass (cls : List Char) (r : Char) (c : Char) : Char :=
  if cls.contains c then r else c

/-- Characters kept by the `[^a-z0-9]` strip. -/
def isAlnumLower (c : Char) : Bool :=
  ('a' ≤ c ∧ c ≤ 'z') ∨ ('0' ≤ c ∧ c ≤ '9')

/-- The sanitisation pipeline of `generateUsername` (validation.ts, lines
78–89): trim, lowercase, fold each diacritic class to its base letter,
fold đ to d, strip everything outside [a-z0-9], truncate to 50. -/
def sanitizeName (fullName : String) : String :=
  String.mk (((((((((((jsTrim fullName).data.map jsToLowerChar).map
    (replaceClass aChars 'a')).map
    (replaceClass eChars 'e')).map
    (replaceClass iChars 'i')).map
    (replaceClass oChars 'o')).map
    (replaceClass uChars 'u')).map
    (replaceClass yChars 'y')).map
    (replaceClass ['đ'] 'd')).filter isAlnumLower).take 50)

/-- Fallback to "user" when the sanitised name is empty (lines 92–94). -/
def usernameBase (fullName : String) : String :=
  if (sanitizeName fullName).length = 0 then "user" else sanitizeName fullName

/-- The `while (existingUsernames.includes(finalUsername))` loop of
`generateUsername` (lines 97–107), with `fuel = 1000 - counter` making the
`counter > 1000` break structural: test the current name; on a collision
build the next suffixed name and continue, or give up with the timestamp
once the counter would pass 1000. -/
def collisionLoop (username : String) (existing : List String) (now : Nat) :
    Nat → Nat → String → String
  | 0, _, finalUsername =>
      if existing.contains finalUsername then username ++ Nat.repr now
      else finalUsername
  | fuel + 1, counter, finalUsername =>
      if existing.contains finalUsername then
        collisionLoop username existing now fuel (counter + 1)
          (username ++ Nat.repr counter)
      else finalUsername

/-- `generateUsername` (validation.ts, lines 72–109): empty or
whitespace-only input returns the empty string at once; otherwise the
sanitised base (or "user") runs through the collision loop starting at
counter 1. -/
def generateUsername (fullName : String) (existing : List String)
    (now : Nat) : String :=
  if (jsTrim fullName).length = 0 then ""
  else collisionLoop (usernameBase fullName) existing now 999 1
    (usernameBase fullName)

/-- The n-th candidate name tried by the loop: the base itself, then the
base with suffix 1, 2, …. -/
def suffixedName (base : String) : Nat → String
  | 0 => base
  | k + 1 => base ++ Nat.repr (k + 1)

/-- Claim C1: for every candidate and requested target, if the pair
(current status, target) is in the §4.1 transition table then the
transition succeeds and the resulting status is the target; otherwise it
fails with `InvalidTransition` (reporting current and requested states)
and the candidate is unchanged. -/
theorem transition_matches_spec_table (c : Candidate) (t : CandidateStatus) :
    (specTransitionTable c.status t = true →
      transition c t = (none, { c with status := t })) ∧
    (specTransitionTable c.status t = false →
      transition c t = (some (.invalidTransition c.status t), c)) := by
  obtain ⟨id, fn, em, pos, s⟩ := c
  cases s <;> cases t <;>
    simp [specTransitionTable, transition, transitionTargets,
      getAvailableActions, decisionStatus, List.contains]

/-- Witness for C1: from SUBMITTED the target APPROVED is legal and is
applied, while the target HIRED is rejected with the statuses reported. -/
theorem transition_matches_spec_table_witness :
    (specTransitionTable .SUBMITTED .APPROVED = true ∧
      transition ⟨"c1", "An", "an@x.vn", "p1", .SUBMITTED⟩ .APPROVED =
        (none, ⟨"c1", "An", "an@x.vn", "p1", .APPROVED⟩)) ∧
    (specTransitionTable .SUBMITTED .HIRED = false ∧
      transition ⟨"c1", "An", "an@x.vn", "p1", .SUBMITTED⟩ .HIRED =
        (some (.invalidTransition .SUBMITTED .HIRED),
          ⟨"c1", "An", "an@x.vn", "p1", .SUBMITTED⟩)) := by
  refine ⟨⟨by decide, ?_⟩, ⟨by decide, ?_⟩⟩
  · exact (transition_matches_spec_table
      ⟨"c1", "An", "an@x.vn", "p1", .SUBMITTED⟩ .APPROVED).1 (by decide)
  · exact (transition_matches_spec_table
      ⟨"c1", "An", "an@x.vn", "p1", .SUBMITTED⟩ .HIRED).2 (by decide)

/-- Claim C6: with an empty interviewer list, `createSession` fails with
`NoInterviewerSelected` before any write is attempted, whatever the store
holds (in particular whatever the candidate's status is) and whatever the
environment would do to the writes. -/
theorem createSession_empty_interviewers (fail : FailSpec) (st : StoreState)
    (candidate_id title scheduled_date actorId : String) :
    createSession fail st candidate_id title scheduled_date [] actorId =
      (.error .noInterviewerSelected, st) := rfl

/-- Effect of the interview fan-out when no write fails: the rows appended
are exactly one PENDING interview with empty notes per interviewer id, in
order, and only the interviews table and the id counter change. -/
theorem insertInterviews_noFail (candidate_id session_id : String) :
    ∀ (ids : List String) (st : StoreState) (k : Nat),
    ∃ rows : List Interview,
      insertInterviews noFail st candidate_id session_id ids k =
        (.ok (), { st with interviews := st.interviews ++ rows,
                           nextId := st.nextId + rows.length }) ∧
      rows.map (fun r => r.interviewer_id) = ids ∧
      ∀ r ∈ rows, r.result = .PENDING ∧ r.tech_notes = "" ∧
        r.soft_notes = "" ∧ r.interview_session_id = session_id ∧
        r.candidate_id = candidate_id
  | [], st, k => by
      refine ⟨[], ?_, rfl, by simp⟩
      simp [insertInterviews]
  | interviewerId :: rest, st, k => by
      obtain ⟨rows, hrun, hmap, hrows⟩ :=
        insertInterviews_noFail candidate_id session_id rest
          { st with
            interviews := st.interviews ++
              [{ id := toString st.nextId, candidate_id := candidate_id,
                 interviewer_id := interviewerId,
                 interview_session_id := session_id,
                 tech_notes := "", soft_notes := "", result := .PENDING }],
            nextId := st.nextId + 1 } (k + 1)
      refine ⟨{ id := toString st.nextId, candidate_id := candidate_id,
                interviewer_id := interviewerId,
                interview_session_id := session_id,
                tech_notes := "", soft_notes := "",
                result := .PENDING } :: rows, ?_, ?_, ?_⟩
      · have hstep :
            insertInterviews noFail st candidate_id session_id
              (interviewerId :: rest) k =
            insertInterviews noFail
              { st with
                interviews := st.interviews ++
                  [{ id := toString st.nextId, candidate_id := candidate_id,
                     interviewer_id := interviewerId,
                     interview_session_id := session_id,
                     tech_notes := "", soft_notes := "",
                     result := .PENDING }],
                nextId := st.nextId + 1 } candidate_id session_id rest
              (k + 1) := rfl
        rw [hstep, hrun]
        simp [List.append_assoc]
        omega
      · simpa using hmap
      · intro r hr
        rcases List.mem_cons.mp hr with rfl | hr
        · simp
        · exact hrows r hr

/-- Whenever a list maps onto a duplicate-free key list, each key is hit
by exactly one element. -/
theorem length_filter_eq_one_of_map_nodup {α β : Type} [DecidableEq β]
    (f : α → β) (l : List α) (ids : List β) (h : l.map f = ids)
    (hnd : ids.Nodup) (iid : β) (hm : iid ∈ ids) :
    (l.filter (fun r => f r = iid)).length = 1 := by
  subst h
  rw [← List.countP_eq_length_filter]
  have hcp : List.countP (fun x => decide (x = iid)) (l.map f) =
      List.countP (fun r => decide (f r = iid)) l := List.countP_map _ _ _
  rw [← hcp]
  have : List.countP (fun x => decide (x = iid)) (l.map f) =
      List.count iid (l.map f) := by
    simp [List.count, BEq.beq]
  rw [this]
  exact List.count_eq_one_of_mem hnd hm

/-- Claim C2: a successful `createSession` over n distinct interviewer ids
appends exactly one SCHEDULED session row, appends exactly n interview
rows — one per interviewer id, PENDING with empty notes, linked to that
session — and rewrites the candidate's status to INTERVIEW. -/
theorem createSession_success_effects (st : StoreState)
    (candidate_id title scheduled_date actorId : String)
    (ids : List String) (hne : ids ≠ []) (hnd : ids.Nodup)
    (hex : (st.candidates.find? (fun c => c.id = candidate_id)).isSome) :
    ∃ (s : InterviewSession) (rows : List Interview),
      (createSession noFail st candidate_id title scheduled_date ids
        actorId).1 = .ok () ∧
      (createSession noFail st candidate_id title scheduled_date ids
        actorId).2.sessions = st.sessions ++ [s] ∧
      s.status = .SCHEDULED ∧ s.candidate_id = candidate_id ∧
      (createSession noFail st candidate_id title scheduled_date ids
        actorId).2.interviews = st.interviews ++ rows ∧
      rows.map (fun r => r.interviewer_id) = ids ∧
      (∀ r ∈ rows, r.result = .PENDING ∧ r.tech_notes = "" ∧
        r.soft_notes = "" ∧ r.interview_session_id = s.id ∧
        r.candidate_id = candidate_id) ∧
      (∀ iid ∈ ids, (rows.filter
        (fun r => r.interviewer_id = iid)).length = 1) ∧
      (createSession noFail st candidate_id title scheduled_date ids
        actorId).2.candidates = st.candidates.map (fun x =>
          if x.id = candidate_id then { x with status := .INTERVIEW } else x) := by
  obtain ⟨id0, rest, rfl⟩ := List.exists_cons_of_ne_nil hne
  obtain ⟨rows, hrun, hmap, hrows⟩ :=
    insertInterviews_noFail candidate_id (toString st.nextId) (id0 :: rest)
      { st with
        sessions := st.sessions ++
          [{ id := toString st.nextId, candidate_id := candidate_id,
             title := title, scheduled_date := scheduled_date,
             status := .SCHEDULED, created_by := actorId }],
        nextId := st.nextId + 1 } 0
  obtain ⟨c, hc⟩ := Option.isSome_iff_exists.mp hex
  have hcs : createSession noFail st candidate_id title scheduled_date
      (id0 :: rest) actorId =
      (.ok (), { st with
        sessions := st.sessions ++
          [{ id := toString st.nextId, candidate_id := candidate_id,
             title := title, scheduled_date := scheduled_date,
             status := .SCHEDULED, created_by := actorId }],
        interviews := st.interviews ++ rows,
        candidates := st.candidates.map (fun x =>
          if x.id = candidate_id then { x with status := .INTERVIEW } else x),
        nextId := st.nextId + 1 + rows.length }) := by
    have hstep : createSession noFail st candidate_id title scheduled_date
        (id0 :: rest) actorId =
        (match insertInterviews noFail
            { st with
              sessions := st.sessions ++
                [{ id := toString st.nextId, candidate_id := candidate_id,
                   title := title, scheduled_date := scheduled_date,
                   status := .SCHEDULED, created_by := actorId }],
              nextId := st.nextId + 1 } candidate_id (toString st.nextId)
            (id0 :: rest) 0 with
         | (.error e, st2) => (.error e, st2)
         | (.ok _, st2) =>
           match dbUpdateCandidateStatus false st2 candidate_id
               .INTERVIEW with
           | .error e => (.error e, st2)
           | .ok (_, st3) => (.ok (), st3)) := rfl
    rw [hstep, hrun]
    simp [dbUpdateCandidateStatus, hc]
  refine ⟨{ id := toString st.nextId, candidate_id := candidate_id,
            title := title, scheduled_date := scheduled_date,
            status := .SCHEDULED, created_by := actorId }, rows,
          ?_, ?_, rfl, rfl, ?_, hmap, ?_, ?_, ?_⟩
  · rw [hcs]
  · rw [hcs]
  · rw [hcs]
  · intro r hr
    exact hrows r hr
  · intro iid hm
    exact length_filter_eq_one_of_map_nodup _ rows (id0 :: rest) hmap hnd iid hm
  · rw [hcs]

/-- Witness for C2: on a store holding one APPROVED candidate, a session
for interviewers u1 and u2 succeeds with the claimed rows and status. -/
theorem createSession_success_effects_witness :
    ((["u1", "u2"] : List String) ≠ [] ∧
      (["u1", "u2"] : List String).Nodup ∧
      ((StoreState.mk [⟨"c1", "An", "an@x.vn", "p1", .APPROVED⟩] [] [] [] []
        0).candidates.find? (fun c => c.id = "c1")).isSome) ∧
    (∃ (s : InterviewSession) (rows : List Interview),
      (createSession noFail
        (StoreState.mk [⟨"c1", "An", "an@x.vn", "p1", .APPROVED⟩] [] [] [] [] 0)
        "c1" "Phong van" "2025-01-01" ["u1", "u2"] "hr1").1 = .ok () ∧
      (createSession noFail
        (StoreState.mk [⟨"c1", "An", "an@x.vn", "p1", .APPROVED⟩] [] [] [] [] 0)
        "c1" "Phong van" "2025-01-01" ["u1", "u2"] "hr1").2.sessions =
        (StoreState.mk [⟨"c1", "An", "an@x.vn", "p1", .APPROVED⟩] [] [] [] []
          0).sessions ++ [s] ∧
      s.status = .SCHEDULED ∧ s.candidate_id = "c1" ∧
      (createSession noFail
        (StoreState.mk [⟨"c1", "An", "an@x.vn", "p1", .APPROVED⟩] [] [] [] [] 0)
        "c1" "Phong van" "2025-01-01" ["u1", "u2"] "hr1").2.interviews =
        (StoreState.mk [⟨"c1", "An", "an@x.vn", "p1", .APPROVED⟩] [] [] [] []
          0).interviews ++ rows ∧
      rows.map (fun r => r.interviewer_id) = ["u1", "u2"] ∧
      (∀ r ∈ rows, r.result = .PENDING ∧ r.tech_notes = "" ∧
        r.soft_notes = "" ∧ r.interview_session_id = s.id ∧
        r.candidate_id = "c1") ∧
      (∀ iid ∈ (["u1", "u2"] : List String), (rows.filter
        (fun r => r.interviewer_id = iid)).length = 1) ∧
      (createSession noFail
        (StoreState.mk [⟨"c1", "An", "an@x.vn", "p1", .APPROVED⟩] [] [] [] [] 0)
        "c1" "Phong van" "2025-01-01" ["u1", "u2"] "hr1").2.candidates =
        (StoreState.mk [⟨"c1", "An", "an@x.vn", "p1", .APPROVED⟩] [] [] [] []
          0).candidates.map (fun x =>
            if x.id = "c1" then { x with status := .INTERVIEW } else x)) :=
  ⟨⟨by decide, by decide, by decide⟩,
    createSession_success_effects
      (StoreState.mk [⟨"c1", "An", "an@x.vn", "p1", .APPROVED⟩] [] [] [] [] 0)
      "c1" "Phong van" "2025-01-01" "hr1" ["u1", "u2"]
      (by decide) (by decide) (by decide)⟩

/-- Counterexample to C3 as stated: with one interviewer and an injected
failure of only the final candidate-status update, `createSession` reports
an error, yet afterwards the session row and the interview row it inserted
are still visible — the store does not equal the state before the call. -/
theorem createSession_not_atomic_cex :
    (createSession
      (FailSpec.mk false (fun _ => false) true false)
      (StoreState.mk [⟨"c1", "An", "an@x.vn", "p1", .APPROVED⟩] [] [] [] [] 0)
      "c1" "Phong van" "2025-01-01" ["u1"] "hr1").1 = .error .dbFailure ∧
    (createSession
      (FailSpec.mk false (fun _ => false) true false)
      (StoreState.mk [⟨"c1", "An", "an@x.vn", "p1", .APPROVED⟩] [] [] [] [] 0)
      "c1" "Phong van" "2025-01-01" ["u1"] "hr1").2.sessions.length = 1 ∧
    (createSession
      (FailSpec.mk false (fun _ => false) true false)
      (StoreState.mk [⟨"c1", "An", "an@x.vn", "p1", .APPROVED⟩] [] [] [] [] 0)
      "c1" "Phong van" "2025-01-01" ["u1"] "hr1").2.interviews.length = 1 ∧
    (createSession
      (FailSpec.mk false (fun _ => false) true false)
      (StoreState.mk [⟨"c1", "An", "an@x.vn", "p1", .APPROVED⟩] [] [] [] [] 0)
      "c1" "Phong van" "2025-01-01" ["u1"] "hr1").2 ≠
      StoreState.mk [⟨"c1", "An", "an@x.vn", "p1", .APPROVED⟩] [] [] [] [] 0 := by
  refine ⟨rfl, rfl, rfl, ?_⟩
  decide

/-- State reached by the interview fan-out under any failure schedule:
whatever succeeds before the run stops only appends interview rows and
bumps the id counter; sessions, candidates, decisions and audit logs are
untouched. -/
theorem insertInterviews_state (fail : FailSpec) (candidate_id session_id :
    String) :
    ∀ (ids : List String) (st : StoreState) (k : Nat),
    ∃ rows : List Interview,
      (insertInterviews fail st candidate_id session_id ids k).2 =
        { st with interviews := st.interviews ++ rows,
                  nextId := st.nextId + rows.length }
  | [], st, k => ⟨[], by simp [insertInterviews]⟩
  | interviewerId :: rest, st, k => by
      cases hf : fail.interviewInsert k with
      | true =>
          refine ⟨[], ?_⟩
          simp [insertInterviews, dbInsertInterview, hf]
      | false =>
          obtain ⟨rows, hrun⟩ :=
            insertInterviews_state fail candidate_id session_id rest
              { st with
                interviews := st.interviews ++
                  [{ id := toString st.nextId, candidate_id := candidate_id,
                     interviewer_id := interviewerId,
                     interview_session_id := session_id,
                     tech_notes := "", soft_notes := "",
                     result := .PENDING }],
                nextId := st.nextId + 1 } (k + 1)
          refine ⟨{ id := toString st.nextId, candidate_id := candidate_id,
                    interviewer_id := interviewerId,
                    interview_session_id := session_id,
                    tech_notes := "", soft_notes := "",
                    result := .PENDING } :: rows, ?_⟩
          have hstep :
              insertInterviews fail st candidate_id session_id
                (interviewerId :: rest) k =
              insertInterviews fail
                { st with
                  interviews := st.interviews ++
                    [{ id := toString st.nextId, candidate_id := candidate_id,
                       interviewer_id := interviewerId,
                       interview_session_id := session_id,
                       tech_notes := "", soft_notes := "",
                       result := .PENDING }],
                  nextId := st.nextId + 1 } candidate_id session_id rest
                (k + 1) := by
            simp [insertInterviews, dbInsertInterview, hf]
          rw [hstep, hrun]
          simp [List.append_assoc]
          omega

/-- Amended claim C3: `createSession` is not all-or-nothing. The store is
unchanged only when the run stops before its first write (empty interviewer
list, or the session insert itself rejects); once the session insert has
succeeded, any later failure leaves the new session row — and whatever
interview rows were already inserted — visible in the store. -/
theorem createSession_failure_visibility (fail : FailSpec) (st : StoreState)
    (candidate_id title scheduled_date actorId : String)
    (ids : List String) :
    ((createSession fail st candidate_id title scheduled_date [] actorId).2 =
      st) ∧
    (ids ≠ [] → fail.sessionInsert = true →
      createSession fail st candidate_id title scheduled_date ids actorId =
        (.error .dbFailure, st)) ∧
    (ids ≠ [] → fail.sessionInsert = false →
      (createSession fail st candidate_id title scheduled_date ids
        actorId).1 ≠ .ok () →
      ∃ (s : InterviewSession) (rows : List Interview),
        s.status = .SCHEDULED ∧
        (createSession fail st candidate_id title scheduled_date ids
          actorId).2.sessions = st.sessions ++ [s] ∧
        (createSession fail st candidate_id title scheduled_date ids
          actorId).2.interviews = st.interviews ++ rows) := by
  refine ⟨rfl, ?_, ?_⟩
  · rintro hne hs
    obtain ⟨id0, rest, rfl⟩ := List.exists_cons_of_ne_nil hne
    simp [createSession, dbInsertSession, hs]
  · rintro hne hs herr
    obtain ⟨id0, rest, rfl⟩ := List.exists_cons_of_ne_nil hne
    obtain ⟨rows, hst2⟩ :=
      insertInterviews_state fail candidate_id (toString st.nextId)
        (id0 :: rest)
        { st with
          sessions := st.sessions ++
            [{ id := toString st.nextId, candidate_id := candidate_id,
               title := title, scheduled_date := scheduled_date,
               status := .SCHEDULED, created_by := actorId }],
          nextId := st.nextId + 1 } 0
    have hstep : createSession fail st candidate_id title scheduled_date
        (id0 :: rest) actorId =
        (match insertInterviews fail
            { st with
              sessions := st.sessions ++
                [{ id := toString st.nextId, candidate_id := candidate_id,
                   title := title, scheduled_date := scheduled_date,
                   status := .SCHEDULED, created_by := actorId }],
              nextId := st.nextId + 1 } candidate_id (toString st.nextId)
            (id0 :: rest) 0 with
         | (.error e, st2) => (.error e, st2)
         | (.ok _, st2) =>
           match dbUpdateCandidateStatus fail.candidateUpdate st2
               candidate_id .INTERVIEW with
           | .error e => (.error e, st2)
           | .ok (_, st3) => (.ok (), st3)) := by
      simp [createSession, dbInsertSession, hs]
    rw [hstep] at herr
    have hpost : (createSession fail st candidate_id title scheduled_date
        (id0 :: rest) actorId).2 =
        { st with
          sessions := st.sessions ++
            [{ id := toString st.nextId, candidate_id := candidate_id,
               title := title, scheduled_date := scheduled_date,
               status := .SCHEDULED, created_by := actorId }],
          interviews := st.interviews ++ rows,
          nextId := st.nextId + 1 + rows.length } := by
      rw [hstep]
      rcases hrun : insertInterviews fail
          { st with
            sessions := st.sessions ++
              [{ id := toString st.nextId, candidate_id := candidate_id,
                 title := title, scheduled_date := scheduled_date,
                 status := .SCHEDULED, created_by := actorId }],
            nextId := st.nextId + 1 } candidate_id (toString st.nextId)
          (id0 :: rest) 0 with ⟨r2, st2⟩
      rw [hrun] at hst2 herr
      cases r2 with
      | error e => simpa using hst2
      | ok u =>
          rcases hu : dbUpdateCandidateStatus fail.candidateUpdate st2
              candidate_id .INTERVIEW with e | p
          · simp only [hu]
            simpa using hst2
          · simp [hu] at herr
    refine ⟨{ id := toString st.nextId, candidate_id := candidate_id,
              title := title, scheduled_date := scheduled_date,
              status := .SCHEDULED, created_by := actorId }, rows, rfl,
            ?_, ?_⟩
    · rw [hpost]
    · rw [hpost]

/-- Witness for the amended C3: with the candidate-update write rejected,
the failed run leaves the session and interview rows in the store. -/
theorem createSession_failure_visibility_witness :
    ((["u1"] : List String) ≠ [] ∧
      (FailSpec.mk false (fun _ => false) true false).sessionInsert = false ∧
      (createSession (FailSpec.mk false (fun _ => false) true false)
        (StoreState.mk [⟨"c1", "An", "an@x.vn", "p1", .APPROVED⟩] [] [] [] [] 0)
        "c1" "Phong van" "2025-01-01" ["u1"] "hr1").1 ≠ .ok ()) ∧
    (∃ (s : InterviewSession) (rows : List Interview),
      s.status = .SCHEDULED ∧
      (createSession (FailSpec.mk false (fun _ => false) true false)
        (StoreState.mk [⟨"c1", "An", "an@x.vn", "p1", .APPROVED⟩] [] [] [] [] 0)
        "c1" "Phong van" "2025-01-01" ["u1"] "hr1").2.sessions =
        (StoreState.mk [⟨"c1", "An", "an@x.vn", "p1", .APPROVED⟩] [] [] [] []
          0).sessions ++ [s] ∧
      (createSession (FailSpec.mk false (fun _ => false) true false)
        (StoreState.mk [⟨"c1", "An", "an@x.vn", "p1", .APPROVED⟩] [] [] [] [] 0)
        "c1" "Phong van" "2025-01-01" ["u1"] "hr1").2.interviews =
        (StoreState.mk [⟨"c1", "An", "an@x.vn", "p1", .APPROVED⟩] [] [] [] []
          0).interviews ++ rows) :=
  ⟨⟨by decide, rfl, by decide⟩,
    (createSession_failure_visibility
      (FailSpec.mk false (fun _ => false) true false)
      (StoreState.mk [⟨"c1", "An", "an@x.vn", "p1", .APPROVED⟩] [] [] [] [] 0)
      "c1" "Phong van" "2025-01-01" "hr1" ["u1"]).2.2
      (by decide) rfl (by decide)⟩

/-- Claim C4: `recordDecision` fails (leaving the store unchanged) when
the candidate's status is not INTERVIEW; on a successful run it appends
one Decision row and then rewrites the candidate's status to OFFERED for
HIRE and NOT_HIRED for NO_HIRE — and that written status is never HIRED. -/
theorem recordDecision_spec (fail : FailSpec) (st : StoreState)
    (candidateId : String) (decision : DecisionChoice)
    (decision_notes actorId : String) (c : Candidate)
    (hc : st.candidates.find? (fun x => x.id = candidateId) = some c) :
    (c.status ≠ .INTERVIEW →
      recordDecision fail st candidateId decision decision_notes actorId =
        (.error .decisionNotAvailable, st)) ∧
    (c.status = .INTERVIEW →
      ∃ d : Decision,
        (recordDecision noFail st candidateId decision decision_notes
          actorId).1 = .ok () ∧
        (recordDecision noFail st candidateId decision decision_notes
          actorId).2.decisions = st.decisions ++ [d] ∧
        d.decision = decision ∧ d.candidate_id = candidateId ∧
        d.decided_by = actorId ∧
        (recordDecision noFail st candidateId decision decision_notes
          actorId).2.candidates = st.candidates.map (fun x =>
            if x.id = candidateId then
              { x with status := decisionStatus decision } else x) ∧
        decisionStatus decision ≠ .HIRED) := by
  constructor
  · intro hne
    have hact : UIAction.openDecisionForm ∉ getAvailableActions c.status := by
      cases hs : c.status <;> simp_all [getAvailableActions]
    simp [recordDecision, hc, hact]
  · intro hi
    have hact : UIAction.openDecisionForm ∈ getAvailableActions c.status := by
      rw [hi]; simp [getAvailableActions]
    refine ⟨{ id := toString st.nextId, candidate_id := candidateId,
              decided_by := actorId, decision := decision,
              decision_notes := decision_notes }, ?_⟩
    have hrun : recordDecision noFail st candidateId decision decision_notes
        actorId =
        (.ok (), { st with
          decisions := st.decisions ++
            [{ id := toString st.nextId, candidate_id := candidateId,
               decided_by := actorId, decision := decision,
               decision_notes := decision_notes }],
          candidates := st.candidates.map (fun x =>
            if x.id = candidateId then
              { x with status := decisionStatus decision } else x),
          nextId := st.nextId + 1 }) := by
      simp [recordDecision, hc, hact, dbInsertDecision, noFail,
        dbUpdateCandidateStatus]
    refine ⟨?_, ?_, rfl, rfl, rfl, ?_, ?_⟩
    · rw [hrun]
    · rw [hrun]
    · rw [hrun]
    · cases decision <;> simp [decisionStatus]

/-- Witness for C4: on a store holding one INTERVIEW candidate, a HIRE
decision succeeds, appends the decision row and writes OFFERED; on the
same store with the candidate still SUBMITTED, the resolver rejects. -/
theorem recordDecision_spec_witness :
    ((StoreState.mk [⟨"c2", "Binh", "b@x.vn", "p1", .SUBMITTED⟩] [] [] [] []
        0).candidates.find? (fun x => x.id = "c2") =
      some ⟨"c2", "Binh", "b@x.vn", "p1", .SUBMITTED⟩ ∧
      (Candidate.mk "c2" "Binh" "b@x.vn" "p1" .SUBMITTED).status ≠
        .INTERVIEW ∧
      recordDecision noFail
        (StoreState.mk [⟨"c2", "Binh", "b@x.vn", "p1", .SUBMITTED⟩] [] [] [] [] 0)
        "c2" .HIRE "Ghi chu quyet dinh" "hr1" =
        (.error .decisionNotAvailable,
          StoreState.mk [⟨"c2", "Binh", "b@x.vn", "p1", .SUBMITTED⟩] [] [] [] []
            0)) ∧
    ((StoreState.mk [⟨"c1", "An", "an@x.vn", "p1", .INTERVIEW⟩] [] [] [] []
        0).candidates.find? (fun x => x.id = "c1") =
      some ⟨"c1", "An", "an@x.vn", "p1", .INTERVIEW⟩ ∧
      ∃ d : Decision,
        (recordDecision noFail
          (StoreState.mk [⟨"c1", "An", "an@x.vn", "p1", .INTERVIEW⟩] [] [] [] [] 0)
          "c1" .HIRE "Ghi chu quyet dinh" "hr1").1 = .ok () ∧
        (recordDecision noFail
          (StoreState.mk [⟨"c1", "An", "an@x.vn", "p1", .INTERVIEW⟩] [] [] [] [] 0)
          "c1" .HIRE "Ghi chu quyet dinh" "hr1").2.decisions =
          (StoreState.mk [⟨"c1", "An", "an@x.vn", "p1", .INTERVIEW⟩] [] [] [] []
            0).decisions ++ [d] ∧
        d.decision = .HIRE ∧ d.candidate_id = "c1" ∧ d.decided_by = "hr1" ∧
        (recordDecision noFail
          (StoreState.mk [⟨"c1", "An", "an@x.vn", "p1", .INTERVIEW⟩] [] [] [] [] 0)
          "c1" .HIRE "Ghi chu quyet dinh" "hr1").2.candidates =
          (StoreState.mk [⟨"c1", "An", "an@x.vn", "p1", .INTERVIEW⟩] [] [] [] []
            0).candidates.map (fun x =>
              if x.id = "c1" then
                { x with status := decisionStatus .HIRE } else x) ∧
        decisionStatus .HIRE ≠ .HIRED) :=
  ⟨⟨by decide, by decide,
    (recordDecision_spec (FailSpec.mk false (fun _ => false) false false)
      (StoreState.mk [⟨"c2", "Binh", "b@x.vn", "p1", .SUBMITTED⟩] [] [] [] [] 0)
      "c2" .HIRE "Ghi chu quyet dinh" "hr1"
      ⟨"c2", "Binh", "b@x.vn", "p1", .SUBMITTED⟩ (by decide)).1 (by decide)⟩,
   ⟨by decide,
    (recordDecision_spec noFail
      (StoreState.mk [⟨"c1", "An", "an@x.vn", "p1", .INTERVIEW⟩] [] [] [] [] 0)
      "c1" .HIRE "Ghi chu quyet dinh" "hr1"
      ⟨"c1", "An", "an@x.vn", "p1", .INTERVIEW⟩ (by decide)).2 rfl⟩⟩

/-- Counterexample to C9 as stated: a successful SUBMITTED → APPROVED
transition through the lifecycle operation leaves the audit log exactly as
it was — empty — so no event with action "STATUS_CHANGED" is recorded. -/
theorem statusChanged_audit_cex :
    (updateCandidateStatus false
      (StoreState.mk [⟨"c1", "An", "an@x.vn", "p1", .SUBMITTED⟩] [] [] [] [] 0)
      "c1" .APPROVED).1 = .ok () ∧
    (updateCandidateStatus false
      (StoreState.mk [⟨"c1", "An", "an@x.vn", "p1", .SUBMITTED⟩] [] [] [] [] 0)
      "c1" .APPROVED).2.candidates =
      [⟨"c1", "An", "an@x.vn", "p1", .APPROVED⟩] ∧
    ((updateCandidateStatus false
      (StoreState.mk [⟨"c1", "An", "an@x.vn", "p1", .SUBMITTED⟩] [] [] [] [] 0)
      "c1" .APPROVED).2.auditLogs.filter
        (fun l => l.action = "STATUS_CHANGED")) = [] ∧
    (updateCandidateStatus false
      (StoreState.mk [⟨"c1", "An", "an@x.vn", "p1", .SUBMITTED⟩] [] [] [] [] 0)
      "c1" .APPROVED).2.auditLogs = [] := by
  refine ⟨rfl, by decide, rfl, rfl⟩

/-- Audit log preservation of a successful candidate update at the store
layer. -/
theorem dbUpdateCandidateStatus_auditLogs (fail : Bool) (st : StoreState)
    (candidateId : String) (status : CandidateStatus) (c : Candidate)
    (st' : StoreState)
    (h : dbUpdateCandidateStatus fail st candidateId status = .ok (c, st')) :
    st'.auditLogs = st.auditLogs := by
  cases fail with
  | true => simp [dbUpdateCandidateStatus] at h
  | false =>
      cases hfind : st.candidates.find? (fun x => x.id = candidateId) with
      | none => simp [dbUpdateCandidateStatus, hfind] at h
      | some c0 =>
          simp [dbUpdateCandidateStatus, hfind] at h
          rw [← h.2]

/-- Amended claim C9: no status transition records any audit event. The
lifecycle status update, the interview-session creation and the decision
resolver all leave the audit log exactly as it was (in the source, only
candidate creation and login/logout write audit logs, and no write
anywhere uses the action "STATUS_CHANGED"). -/
theorem lifecycle_no_audit (fail : FailSpec) (fb : Bool) (st : StoreState)
    (candidateId title scheduled_date decision_notes actorId : String)
    (ids : List String) (status : CandidateStatus)
    (decision : DecisionChoice) :
    (updateCandidateStatus fb st candidateId status).2.auditLogs =
      st.auditLogs ∧
    (createSession fail st candidateId title scheduled_date ids
      actorId).2.auditLogs = st.auditLogs ∧
    (recordDecision fail st candidateId decision decision_notes
      actorId).2.auditLogs = st.auditLogs := by
  refine ⟨?_, ?_, ?_⟩
  · cases fb with
    | true => rfl
    | false =>
        cases hfind : st.candidates.find? (fun x => x.id = candidateId) with
        | none => simp [updateCandidateStatus, dbUpdateCandidateStatus, hfind]
        | some c => simp [updateCandidateStatus, dbUpdateCandidateStatus, hfind]
  · cases ids with
    | nil => rfl
    | cons id0 rest =>
        cases hs : fail.sessionInsert with
        | true => simp [createSession, dbInsertSession, hs]
        | false =>
            obtain ⟨rows, hst2⟩ :=
              insertInterviews_state fail candidateId (toString st.nextId)
                (id0 :: rest)
                { st with
                  sessions := st.sessions ++
                    [{ id := toString st.nextId, candidate_id := candidateId,
                       title := title, scheduled_date := scheduled_date,
                       status := .SCHEDULED, created_by := actorId }],
                  nextId := st.nextId + 1 } 0
            have hstep : createSession fail st candidateId title
                scheduled_date (id0 :: rest) actorId =
                (match insertInterviews fail
                    { st with
                      sessions := st.sessions ++
                        [{ id := toString st.nextId,
                           candidate_id := candidateId,
                           title := title, scheduled_date := scheduled_date,
                           status := .SCHEDULED, created_by := actorId }],
                      nextId := st.nextId + 1 } candidateId
                    (toString st.nextId) (id0 :: rest) 0 with
                 | (.error e, st2) => (.error e, st2)
                 | (.ok _, st2) =>
                   match dbUpdateCandidateStatus fail.candidateUpdate st2
                       candidateId .INTERVIEW with
                   | .error e => (.error e, st2)
                   | .ok (_, st3) => (.ok (), st3)) := by
              simp [createSession, dbInsertSession, hs]
            rw [hstep]
            rcases hrun : insertInterviews fail
                { st with
                  sessions := st.sessions ++
                    [{ id := toString st.nextId, candidate_id := candidateId,
                       title := title, scheduled_date := scheduled_date,
                       status := .SCHEDULED, created_by := actorId }],
                  nextId := st.nextId + 1 } candidateId (toString st.nextId)
                (id0 :: rest) 0 with ⟨r2, st2⟩
            rw [hrun] at hst2
            simp only at hst2
            cases r2 with
            | error e => simp [hst2]
            | ok u =>
                rcases hu : dbUpdateCandidateStatus fail.candidateUpdate st2
                    candidateId .INTERVIEW with e | p
                · simp only [hu]
                  simp [hst2]
                · obtain ⟨c2, st3⟩ := p
                  have h3 := dbUpdateCandidateStatus_auditLogs
                    fail.candidateUpdate st2 candidateId .INTERVIEW c2 st3 hu
                  simp only [hu]
                  simp [h3, hst2]
  · cases hfind : st.candidates.find? (fun x => x.id = candidateId) with
    | none => simp [recordDecision, hfind]
    | some c =>
        by_cases hmem : UIAction.openDecisionForm ∈ getAvailableActions
          c.status
        case neg => simp [recordDecision, hfind, hmem]
        case pos =>
            cases hd : fail.decisionInsert with
            | true => simp [recordDecision, hfind, hmem, hd,
                dbInsertDecision]
            | false =>
                have hstep : recordDecision fail st candidateId decision
                    decision_notes actorId =
                    (match dbUpdateCandidateStatus fail.candidateUpdate
                        { st with
                          decisions := st.decisions ++
                            [{ id := toString st.nextId,
                               candidate_id := candidateId,
                               decided_by := actorId, decision := decision,
                               decision_notes := decision_notes }],
                          nextId := st.nextId + 1 } candidateId
                        (decisionStatus decision) with
                     | .error e => (.error e,
                         { st with
                           decisions := st.decisions ++
                             [{ id := toString st.nextId,
                                candidate_id := candidateId,
                                decided_by := actorId, decision := decision,
                                decision_notes := decision_notes }],
                           nextId := st.nextId + 1 })
                     | .ok (_, st2) => (.ok (), st2)) := by
                  simp [recordDecision, hfind, hmem, hd, dbInsertDecision]
                rw [hstep]
                rcases hu : dbUpdateCandidateStatus fail.candidateUpdate
                    { st with
                      decisions := st.decisions ++
                        [{ id := toString st.nextId,
                           candidate_id := candidateId,
                           decided_by := actorId, decision := decision,
                           decision_notes := decision_notes }],
                      nextId := st.nextId + 1 } candidateId
                    (decisionStatus decision) with e | p
                · simp [hu]
                · obtain ⟨c2, st2⟩ := p
                  have h2 := dbUpdateCandidateStatus_auditLogs
                    fail.candidateUpdate _ candidateId
                    (decisionStatus decision) c2 st2 hu
                  simp [hu, h2]

/-- Claim C5: `getSessionProgress` returns the number of interviews, the
number with result ≠ PENDING, the number with result = PASS, and the
percentage round(completed/total·100); on the three-interviewer session
with results PASS, FAIL, PENDING it reports total 3, completed 2,
passed 1, percentage 67. -/
theorem getSessionProgress_spec (l : List Interview) :
    (getSessionProgress l).total = l.length ∧
    (getSessionProgress l).completed =
      l.countP (fun i => i.result ≠ .PENDING) ∧
    (getSessionProgress l).passed = l.countP (fun i => i.result = .PASS) ∧
    (l ≠ [] → (getSessionProgress l).percentage =
      round (((l.countP (fun i => i.result ≠ .PENDING) : ℚ) /
        (l.length : ℚ)) * 100)) ∧
    getSessionProgress
      [⟨"i1", "c1", "a", "s1", "t", "s", .PASS⟩,
       ⟨"i2", "c1", "b", "s1", "t", "s", .FAIL⟩,
       ⟨"i3", "c1", "cc", "s1", "t", "s", .PENDING⟩] =
      ⟨3, 2, 1, 67⟩ := by
  refine ⟨rfl, ?_, ?_, ?_, ?_⟩
  · simp [getSessionProgress, List.countP_eq_length_filter]
  · simp [getSessionProgress, List.countP_eq_length_filter]
  · intro hne
    have hpos : 0 < l.length := List.length_pos.mpr hne
    simp [getSessionProgress, hpos, jsMathRound, round_eq,
      List.countP_eq_length_filter]
  · have hf1 : ((([⟨"i1", "c1", "a", "s1", "t", "s", .PASS⟩,
        ⟨"i2", "c1", "b", "s1", "t", "s", .FAIL⟩,
        ⟨"i3", "c1", "cc", "s1", "t", "s", .PENDING⟩] : List
          Interview).filter (fun i => i.result ≠ .PENDING)).length) = 2 := by
      decide
    have hf2 : ((([⟨"i1", "c1", "a", "s1", "t", "s", .PASS⟩,
        ⟨"i2", "c1", "b", "s1", "t", "s", .FAIL⟩,
        ⟨"i3", "c1", "cc", "s1", "t", "s", .PENDING⟩] : List
          Interview).filter (fun i => i.result = .PASS)).length) = 1 := by
      decide
    simp only [getSessionProgress, hf1, hf2]
    norm_num [jsMathRound]

/-- Witness for C5: the percentage formula of the theorem, instantiated on
the PASS/FAIL/PENDING session, yields 67. -/
theorem getSessionProgress_spec_witness :
    (([⟨"i1", "c1", "a", "s1", "t", "s", .PASS⟩,
       ⟨"i2", "c1", "b", "s1", "t", "s", .FAIL⟩,
       ⟨"i3", "c1", "cc", "s1", "t", "s", .PENDING⟩] : List Interview) ≠
      []) ∧
    (getSessionProgress
      [⟨"i1", "c1", "a", "s1", "t", "s", .PASS⟩,
       ⟨"i2", "c1", "b", "s1", "t", "s", .FAIL⟩,
       ⟨"i3", "c1", "cc", "s1", "t", "s", .PENDING⟩]).percentage =
      round (((([⟨"i1", "c1", "a", "s1", "t", "s", .PASS⟩,
        ⟨"i2", "c1", "b", "s1", "t", "s", .FAIL⟩,
        ⟨"i3", "c1", "cc", "s1", "t", "s", .PENDING⟩] : List
          Interview).countP (fun i => i.result ≠ .PENDING) : ℚ) /
        (([⟨"i1", "c1", "a", "s1", "t", "s", .PASS⟩,
        ⟨"i2", "c1", "b", "s1", "t", "s", .FAIL⟩,
        ⟨"i3", "c1", "cc", "s1", "t", "s", .PENDING⟩] : List
          Interview).length : ℚ) * 100)) :=
  ⟨by decide,
    (getSessionProgress_spec
      [⟨"i1", "c1", "a", "s1", "t", "s", .PASS⟩,
       ⟨"i2", "c1", "b", "s1", "t", "s", .FAIL⟩,
       ⟨"i3", "c1", "cc", "s1", "t", "s", .PENDING⟩]).2.2.2.1
      (by decide)⟩

/-- Claim C10: every generated password has exactly 12 characters, starts
with the literal 'A', ends with the literal "a1", its characters 2–10 are
the pool characters selected by draws 2–10, and the output does not depend
on draws 1, 11 and 12 — so only 9 of the 12 characters are random and the
complexity rules (uppercase first, a lowercase and a digit present) hold
for every draw sequence. -/
theorem generatePassword_shape (draws : Fin 12 → Fin 62) :
    (generatePassword draws).length = 12 ∧
    (generatePassword draws).data.head? = some 'A' ∧
    (generatePassword draws).data.drop 10 = ['a', '1'] ∧
    (∀ k : Fin 9, (generatePassword draws).data.getD (k.val + 1) ' ' =
      passwordChars.getD (draws ⟨k.val + 1, by omega⟩) 'A') ∧
    (∀ draws' : Fin 12 → Fin 62,
      (∀ i : Fin 12, 1 ≤ i.val → i.val ≤ 9 → draws i = draws' i) →
      generatePassword draws = generatePassword draws') := by
  have hfr : List.finRange 12 =
      [0, 1, 2, 3, 4, 5, 6, 7, 8, 9, 10, 11] := by decide
  refine ⟨?_, ?_, ?_, ?_, ?_⟩
  · simp [generatePassword, hfr, String.length]
  · simp [generatePassword, hfr]
  · simp [generatePassword, hfr]
  · intro k
    fin_cases k <;> simp [generatePassword, hfr]
  · intro draws' hagree
    have h1 := hagree 1 (by decide) (by decide)
    have h2 := hagree 2 (by decide) (by decide)
    have h3 := hagree 3 (by decide) (by decide)
    have h4 := hagree 4 (by decide) (by decide)
    have h5 := hagree 5 (by decide) (by decide)
    have h6 := hagree 6 (by decide) (by decide)
    have h7 := hagree 7 (by decide) (by decide)
    have h8 := hagree 8 (by decide) (by decide)
    have h9 := hagree 9 (by decide) (by decide)
    simp [generatePassword, hfr, h1, h2, h3, h4, h5, h6, h7, h8, h9]

/-- Witness for C10: changing draws 1, 11 and 12 while keeping draws 2–10
fixed leaves the password unchanged, and the all-zero draw sequence yields
exactly "AAAAAAAAAAa1". -/
theorem generatePassword_shape_witness :
    ((∀ i : Fin 12, 1 ≤ i.val → i.val ≤ 9 →
      (fun _ : Fin 12 => (0 : Fin 62)) i =
      (fun j : Fin 12 => if 1 ≤ j.val ∧ j.val ≤ 9 then (0 : Fin 62)
        else 5) i) ∧
      generatePassword (fun _ => 0) =
        generatePassword (fun j =>
          if 1 ≤ j.val ∧ j.val ≤ 9 then 0 else 5)) ∧
    generatePassword (fun _ => 0) = "AAAAAAAAAAa1" :=
  ⟨⟨by decide,
    (generatePassword_shape (fun _ => 0)).2.2.2.2
      (fun j => if 1 ≤ j.val ∧ j.val ≤ 9 then 0 else 5) (by decide)⟩,
   by decide⟩

/-- If the names tried at offsets m, m+1, …, m+k−1 all collide and the one
at offset m+k is free (with k within the remaining fuel), the loop returns
the name at offset m+k. -/
theorem collisionLoop_found (username : String) (existing : List String)
    (now : Nat) :
    ∀ (k fuel m : Nat), k ≤ fuel →
      (∀ j < k, existing.contains (suffixedName username (m + j)) = true) →
      existing.contains (suffixedName username (m + k)) = false →
      collisionLoop username existing now fuel (m + 1)
        (suffixedName username m) = suffixedName username (m + k)
  | 0, fuel, m, _, _, hfree => by
      have hfree' : existing.contains (suffixedName username m) = false := by
        simpa using hfree
      cases fuel with
      | zero =>
          simp only [collisionLoop, Nat.add_zero]
          rw [hfree']
          simp
      | succ f =>
          simp only [collisionLoop, Nat.add_zero]
          rw [hfree']
          simp
  | k + 1, fuel, m, hk, hcoll, hfree => by
      have h0 : existing.contains (suffixedName username m) = true := by
        simpa using hcoll 0 (by omega)
      cases fuel with
      | zero => omega
      | succ f =>
          have hstep : collisionLoop username existing now (f + 1) (m + 1)
              (suffixedName username m) =
              collisionLoop username existing now f (m + 1 + 1)
                (suffixedName username (m + 1)) := by
            simp only [collisionLoop]
            rw [h0]
            simp [suffixedName]
          rw [hstep]
          have hrec := collisionLoop_found username existing now k f (m + 1)
            (by omega)
            (fun j hj => by
              have := hcoll (j + 1) (by omega)
              simpa [show m + (j + 1) = m + 1 + j by omega] using this)
            (by simpa [show m + 1 + k = m + (k + 1) by omega] using hfree)
          rw [hrec]
          congr 1
          omega

/-- If every name tried within the fuel collides, the loop falls back to
appending the timestamp. -/
theorem collisionLoop_exhaust (username : String) (existing : List String)
    (now : Nat) :
    ∀ (fuel m : Nat),
      (∀ j ≤ fuel, existing.contains (suffixedName username (m + j)) = true) →
      collisionLoop username existing now fuel (m + 1)
        (suffixedName username m) = username ++ Nat.repr now
  | 0, m, hcoll => by
      have h0 : existing.contains (suffixedName username m) = true := by
        simpa using hcoll 0 (by omega)
      simp only [collisionLoop]
      rw [h0]
      simp
  | fuel + 1, m, hcoll => by
      have h0 : existing.contains (suffixedName username m) = true := by
        simpa using hcoll 0 (by omega)
      have hstep : collisionLoop username existing now (fuel + 1) (m + 1)
          (suffixedName username m) =
          collisionLoop username existing now fuel (m + 1 + 1)
            (suffixedName username (m + 1)) := by
        simp only [collisionLoop]
        rw [h0]
        simp [suffixedName]
      rw [hstep]
      exact collisionLoop_exhaust username existing now fuel (m + 1)
        (fun j hj => by
          have := hcoll (j + 1) (by omega)
          simpa [show m + (j + 1) = m + 1 + j by omega] using this)

/-- Claim C7: the two concrete examples, and in general: suffixes 1, 2, …
are tried in order until a free name is found (tested names are the base
at offset 0 and base++j at offset j); once the base and suffixes 1–999
have all collided — 1000 consecutive collisions — the current timestamp is
appended instead (the suffix built at counter 1000 is discarded untested),
so the recursion is structurally bounded and always terminates. -/
theorem generateUsername_spec :
    (∀ now, generateUsername "Nguyễn Văn An" [] now = "nguyenvanan") ∧
    (∀ now, generateUsername "Nguyễn Văn An" ["nguyenvanan"] now =
      "nguyenvanan1") ∧
    (∀ (fullName : String) (existing : List String) (now k : Nat),
      (jsTrim fullName).length ≠ 0 → k ≤ 999 →
      (∀ j < k, existing.contains
        (suffixedName (usernameBase fullName) j) = true) →
      existing.contains (suffixedName (usernameBase fullName) k) = false →
      generateUsername fullName existing now =
        suffixedName (usernameBase fullName) k) ∧
    (∀ (fullName : String) (existing : List String) (now : Nat),
      (jsTrim fullName).length ≠ 0 →
      (∀ j ≤ 999, existing.contains
        (suffixedName (usernameBase fullName) j) = true) →
      generateUsername fullName existing now =
        usernameBase fullName ++ Nat.repr now) := by
  refine ⟨fun now => rfl, fun now => rfl, ?_, ?_⟩
  · intro fullName existing now k htrim hk hcoll hfree
    have hgen : generateUsername fullName existing now =
        collisionLoop (usernameBase fullName) existing now 999 (0 + 1)
          (suffixedName (usernameBase fullName) 0) := by
      simp [generateUsername, htrim, suffixedName]
    rw [hgen]
    have := collisionLoop_found (usernameBase fullName) existing now k 999 0
      hk (fun j hj => by simpa using hcoll j hj) (by simpa using hfree)
    simpa using this
  · intro fullName existing now htrim hcoll
    have hgen : generateUsername fullName existing now =
        collisionLoop (usernameBase fullName) existing now 999 (0 + 1)
          (suffixedName (usernameBase fullName) 0) := by
      simp [generateUsername, htrim, suffixedName]
    rw [hgen]
    exact collisionLoop_exhaust (usernameBase fullName) existing now 999 0
      (fun j hj => by simpa using hcoll j hj)

/-- Witness for C7: for "Trần Thị Bình" against the taken name
"tranthibinh" the loop stops at suffix 1 — the repository's own test
vector. -/
theorem generateUsername_spec_witness :
    ((jsTrim "Trần Thị Bình").length ≠ 0 ∧ (1 : Nat) ≤ 999 ∧
      (∀ j < 1, (["tranthibinh"] : List String).contains
        (suffixedName (usernameBase "Trần Thị Bình") j) = true) ∧
      (["tranthibinh"] : List String).contains
        (suffixedName (usernameBase "Trần Thị Bình") 1) = false) ∧
    generateUsername "Trần Thị Bình" ["tranthibinh"] 0 =
      suffixedName (usernameBase "Trần Thị Bình") 1 :=
  ⟨⟨by decide, by omega,
    fun j hj => by
      have hj0 : j = 0 := by omega
      subst hj0
      decide,
    by decide⟩,
   generateUsername_spec.2.2.1 "Trần Thị Bình" ["tranthibinh"] 0 1
     (by decide) (by omega)
     (fun j hj => by
       have hj0 : j = 0 := by omega
       subst hj0
       decide)
     (by decide)⟩

/-- Counterexample to C8 as stated: for the empty and the all-whitespace
full name, `generateUsername` returns the empty string through its early
guard — the "user" default is never reached, so the returned name can be
empty. -/
theorem generateUsername_empty_cex :
    generateUsername "" [] 0 = "" ∧
    generateUsername "   " [] 0 = "" ∧
    ("" : String) ≠ "user" := ⟨rfl, rfl, by decide⟩

/-- Every output of the collision loop keeps the base as a prefix. -/
theorem collisionLoop_keeps_base (username : String)
    (existing : List String) (now : Nat) :
    ∀ (fuel counter : Nat) (fu r : String), fu = username ++ r →
      ∃ r2, collisionLoop username existing now fuel counter fu =
        username ++ r2
  | 0, counter, fu, r, hr => by
      by_cases hc : existing.contains fu = true
      · refine ⟨Nat.repr now, ?_⟩
        simp only [collisionLoop]
        rw [hc]
        simp
      · have hc' : existing.contains fu = false := by simpa using hc
        refine ⟨r, ?_⟩
        simp only [collisionLoop]
        rw [hc']
        simp [hr]
  | fuel + 1, counter, fu, r, hr => by
      by_cases hc : existing.contains fu = true
      · have hstep : collisionLoop username existing now (fuel + 1) counter
            fu =
            collisionLoop username existing now fuel (counter + 1)
              (username ++ Nat.repr counter) := by
          simp only [collisionLoop]
          rw [hc]
          simp
        rw [hstep]
        exact collisionLoop_keeps_base username existing now fuel
          (counter + 1) (username ++ Nat.repr counter) (Nat.repr counter) rfl
      · have hc' : existing.contains fu = false := by simpa using hc
        refine ⟨r, ?_⟩
        simp only [collisionLoop]
        rw [hc']
        simp [hr]

/-- Amended claim C8: when the trimmed input is empty, `generateUsername`
returns the empty string (the early guard, before any default applies);
only when the trimmed input is non-empty and the sanitised form is empty
does the "user" default kick in, and then the returned name starts with
"user" and is in particular never empty. -/
theorem generateUsername_user_default (fullName : String)
    (existing : List String) (now : Nat) :
    ((jsTrim fullName).length = 0 →
      generateUsername fullName existing now = "") ∧
    ((jsTrim fullName).length ≠ 0 → sanitizeName fullName = "" →
      usernameBase fullName = "user" ∧
      ∃ rest, generateUsername fullName existing now = "user" ++ rest ∧
        generateUsername fullName existing now ≠ "") := by
  constructor
  · intro h
    simp [generateUsername, h]
  · intro htrim hsan
    have hb : usernameBase fullName = "user" := by
      simp [usernameBase, hsan]
    have hgen : generateUsername fullName existing now =
        collisionLoop "user" existing now 999 1 "user" := by
      simp [generateUsername, htrim, hb]
    obtain ⟨r2, hr2⟩ := collisionLoop_keeps_base "user" existing now 999 1
      "user" "" (by simp)
    refine ⟨hb, r2, by rw [hgen, hr2], ?_⟩
    rw [hgen, hr2]
    intro hcontra
    have hlen := congrArg String.length hcontra
    simp [String.length_append] at hlen
    exact absurd hlen.1 (by decide)

/-- Witness for the amended C8: for the input "@@@" — non-blank but fully
stripped — the default applies and the generated name is "user". -/
theorem generateUsername_user_default_witness :
    ((jsTrim "@@@").length ≠ 0 ∧ sanitizeName "@@@" = "") ∧
    (usernameBase "@@@" = "user" ∧
      ∃ rest, generateUsername "@@@" [] 0 = "user" ++ rest ∧
        generateUsername "@@@" [] 0 ≠ "") :=
  ⟨⟨by decide, by decide⟩,
   (generateUsername_user_default "@@@" [] 0).2 (by decide) (by decide)⟩

end Hrm
